import Mathlib

/-!
Verification of the homedesign floor-plan pipeline.

The 3D pipeline (`floor_plan_to_3d.py` and the `open_3d_viewer` stage of
`floor_plan_editor.py`) performs floating-point geometry with square roots;
it is embedded over `ℝ`.  The interactive editor model
(`floor_plan_editor.py`) performs field arithmetic and comparisons on
pointer coordinates; it is embedded over `ℚ` so that all of its operations
are executable.
-/

namespace HomeDesign

/-! ## Geometry kernel (floor_plan_to_3d.py) -/

/-- Length of a 2D segment, `np.sqrt(dx**2 + dy**2)`
(`floor_plan_to_3d.py` line 131 and `floor_plan_editor.py` line 1136). -/
noncomputable def wallLen (x1 y1 x2 y2 : ℝ) : ℝ :=
  Real.sqrt ((x2 - x1) ^ 2 + (y2 - y1) ^ 2)

/-- A point of the 3D scene. -/
abbrev P3 := ℝ × ℝ × ℝ

/-- Coordinatewise difference of two 3D points. -/
def vsub3 (p q : P3) : P3 := (p.1 - q.1, p.2.1 - q.2.1, p.2.2 - q.2.2)

/-- 3×3 determinant of three vectors (triple product). -/
def det3 (u v w : P3) : ℝ :=
  u.1 * (v.2.1 * w.2.2 - v.2.2 * w.2.1)
    - u.2.1 * (v.1 * w.2.2 - v.2.2 * w.1)
    + u.2.2 * (v.1 * w.2.1 - v.2.1 * w.1)

/-- Four points are coplanar: the three edge vectors out of `a` are linearly
dependent. -/
def Coplanar4 (a b c d : P3) : Prop :=
  det3 (vsub3 b a) (vsub3 c a) (vsub3 d a) = 0

/-- A face is a planar quadrilateral: exactly four vertices, all coplanar. -/
def IsPlanarQuad (face : List P3) : Prop :=
  ∃ a b c d, face = [a, b, c, d] ∧ Coplanar4 a b c d

/-- Embedding of `FloorPlanTo3D.create_3d_wall` (`floor_plan_to_3d.py` lines 120–174):
extrudes one wall segment into the six quad faces of a box, returning `[]`
for a zero-length segment. -/
noncomputable def create_3d_wall (x1 y1 x2 y2 height thickness : ℝ) :
    List (List P3) :=
  if wallLen x1 y1 x2 y2 = 0 then []
  else
    let len := wallLen x1 y1 x2 y2
    let dx_n := (x2 - x1) / len
    let dy_n := (y2 - y1) / len
    let perp_x := -dy_n * thickness / 2
    let perp_y := dx_n * thickness / 2
    let v0 : P3 := (x1 + perp_x, y1 + perp_y, 0)
    let v1 : P3 := (x2 + perp_x, y2 + perp_y, 0)
    let v2 : P3 := (x2 - perp_x, y2 - perp_y, 0)
    let v3 : P3 := (x1 - perp_x, y1 - perp_y, 0)
    let v4 : P3 := (x1 + perp_x, y1 + perp_y, height)
    let v5 : P3 := (x2 + perp_x, y2 + perp_y, height)
    let v6 : P3 := (x2 - perp_x, y2 - perp_y, height)
    let v7 : P3 := (x1 - perp_x, y1 - perp_y, height)
    [[v0, v1, v2, v3], [v4, v5, v6, v7], [v0, v1, v5, v4],
     [v2, v3, v7, v6], [v0, v3, v7, v4], [v1, v2, v6, v5]]

lemma wallLen_pos {x1 y1 x2 y2 : ℝ} (h : (x1, y1) ≠ (x2, y2)) :
    0 < wallLen x1 y1 x2 y2 := by
  have hne : x2 - x1 ≠ 0 ∨ y2 - y1 ≠ 0 := by
    by_contra hc
    push_neg at hc
    exact h (by
      have h1 : x1 = x2 := by linarith [hc.1]
      have h2 : y1 = y2 := by linarith [hc.2]
      rw [h1, h2])
  have hpos : 0 < (x2 - x1) ^ 2 + (y2 - y1) ^ 2 := by
    rcases hne with hne | hne
    · have : 0 < (x2 - x1) ^ 2 := by
        rw [sq]; exact mul_self_pos.mpr hne
      nlinarith [sq_nonneg (y2 - y1)]
    · have : 0 < (y2 - y1) ^ 2 := by
        rw [sq]; exact mul_self_pos.mpr hne
      nlinarith [sq_nonneg (x2 - x1)]
  exact Real.sqrt_pos.mpr hpos

lemma wallLen_degenerate (x y : ℝ) : wallLen x y x y = 0 := by
  simp [wallLen]

/-- C1: a wall segment with distinct endpoints extrudes to exactly 6 faces,
each a planar quadrilateral of 4 vertices; a zero-length segment yields the
empty face list. -/
theorem create_3d_wall_spec (x1 y1 x2 y2 height thickness : ℝ) :
    ((x1, y1) ≠ (x2, y2) →
      (create_3d_wall x1 y1 x2 y2 height thickness).length = 6 ∧
      ∀ face ∈ create_3d_wall x1 y1 x2 y2 height thickness,
        IsPlanarQuad face) ∧
    create_3d_wall x1 y1 x1 y1 height thickness = [] := by
  constructor
  · intro h
    have hlen : wallLen x1 y1 x2 y2 ≠ 0 := ne_of_gt (wallLen_pos h)
    rw [create_3d_wall, if_neg hlen]
    refine ⟨rfl, ?_⟩
    intro face hface
    simp only [List.mem_cons, List.not_mem_nil, or_false] at hface
    rcases hface with rfl | rfl | rfl | rfl | rfl | rfl <;>
      exact ⟨_, _, _, _, rfl, by simp only [Coplanar4, det3, vsub3]; ring⟩
  · rw [create_3d_wall, if_pos (wallLen_degenerate x1 y1)]

/-- Witness for C1 at the concrete segment (0,0)–(4,0), height 3,
thickness 1/5. -/
theorem create_3d_wall_spec_witness :
    (create_3d_wall 0 0 4 0 3 (1/5)).length = 6 ∧
    ∀ face ∈ create_3d_wall 0 0 4 0 3 (1/5), IsPlanarQuad face :=
  (create_3d_wall_spec 0 0 4 0 3 (1/5)).1 (by
    intro hc
    have := congrArg Prod.fst hc
    norm_num at this)

/-! ## Nearest point on a wall (floor_plan_editor.py, find_nearest_wall_point,
lines 1126–1166) -/

/-- Un-clamped parametric position of the projection of `(px, py)` onto the
line through the wall: `t = to_point · wall_dir_norm` (line 1150). -/
noncomputable def tRaw (px py wx1 wy1 wx2 wy2 : ℝ) : ℝ :=
  (px - wx1) * ((wx2 - wx1) / wallLen wx1 wy1 wx2 wy2)
    + (py - wy1) * ((wy2 - wy1) / wallLen wx1 wy1 wx2 wy2)

/-- Parametric position clamped to the wall segment:
`t = max(0, min(wall_len, t))` (line 1151). -/
noncomputable def tClamp (px py wx1 wy1 wx2 wy2 : ℝ) : ℝ :=
  max 0 (min (wallLen wx1 wy1 wx2 wy2) (tRaw px py wx1 wy1 wx2 wy2))

/-- Nearest point on one wall segment (lines 1154–1155). -/
noncomputable def nearestOnWall (px py wx1 wy1 wx2 wy2 : ℝ) : ℝ × ℝ :=
  (wx1 + tClamp px py wx1 wy1 wx2 wy2 * ((wx2 - wx1) / wallLen wx1 wy1 wx2 wy2),
   wy1 + tClamp px py wx1 wy1 wx2 wy2 * ((wy2 - wy1) / wallLen wx1 wy1 wx2 wy2))

/-- Unit perpendicular normal of a wall (line 1164). -/
noncomputable def wallNormal (wx1 wy1 wx2 wy2 : ℝ) : ℝ × ℝ :=
  (-((wy2 - wy1) / wallLen wx1 wy1 wx2 wy2),
   (wx2 - wx1) / wallLen wx1 wy1 wx2 wy2)

/-- Distance from the query point to its nearest point on the wall
(line 1158). -/
noncomputable def distToWall (px py wx1 wy1 wx2 wy2 : ℝ) : ℝ :=
  Real.sqrt ((px - (nearestOnWall px py wx1 wy1 wx2 wy2).1) ^ 2
    + (py - (nearestOnWall px py wx1 wy1 wx2 wy2).2) ^ 2)

/-- The point `(px, py)` lies on the segment from `(ax, ay)` to `(bx, by2)`. -/
def OnSegment (px py ax ay bx by2 : ℝ) : Prop :=
  ∃ s, 0 ≤ s ∧ s ≤ 1 ∧ px = ax + s * (bx - ax) ∧ py = ay + s * (by2 - ay)

/-- C2: for a wall of nonzero length the parametric position is clamped into
`[0, len]`, and a query point already on the segment is returned unchanged. -/
theorem nearestOnWall_spec (px py ax ay bx by2 : ℝ)
    (hAB : (ax, ay) ≠ (bx, by2)) :
    (0 ≤ tClamp px py ax ay bx by2 ∧
      tClamp px py ax ay bx by2 ≤ wallLen ax ay bx by2) ∧
    (OnSegment px py ax ay bx by2 →
      nearestOnWall px py ax ay bx by2 = (px, py)) := by
  have hL : 0 < wallLen ax ay bx by2 := wallLen_pos hAB
  have hLne : wallLen ax ay bx by2 ≠ 0 := ne_of_gt hL
  constructor
  · exact ⟨le_max_left _ _, max_le hL.le (min_le_left _ _)⟩
  · rintro ⟨s, hs0, hs1, hx, hy⟩
    have hsq : wallLen ax ay bx by2 ^ 2 = (bx - ax) ^ 2 + (by2 - ay) ^ 2 := by
      rw [wallLen]
      exact Real.sq_sqrt (by positivity)
    have ht : tRaw px py ax ay bx by2 = s * wallLen ax ay bx by2 := by
      rw [tRaw, hx, hy]
      field_simp
      nlinarith [hsq]
    have htc : tClamp px py ax ay bx by2 = s * wallLen ax ay bx by2 := by
      rw [tClamp, ht, min_eq_right (by nlinarith), max_eq_right (by positivity)]
    rw [nearestOnWall, htc, hx, hy]
    simp only [Prod.mk.injEq]
    constructor <;> (field_simp; ring)

/-- Witness for C2: the point (1, 0) lies on the wall (0,0)–(4,0); the clamp
bounds hold and the nearest point is (1, 0) itself. -/
theorem nearestOnWall_spec_witness :
    (0 ≤ tClamp 1 0 0 0 4 0 ∧ tClamp 1 0 0 0 4 0 ≤ wallLen 0 0 4 0) ∧
    nearestOnWall 1 0 0 0 4 0 = (1, 0) := by
  have h := nearestOnWall_spec 1 0 0 0 4 0 (by
    intro hc
    have := congrArg Prod.fst hc
    norm_num at this)
  exact ⟨h.1, h.2 ⟨1/4, by norm_num, by norm_num, by norm_num, by norm_num⟩⟩

/-! ## Coordinate normalization and floor (floor_plan_to_3d.py) -/

/-- Embedding of `FloorPlanTo3D.normalize_coordinates` (lines 97–118).  The image shape is
`(img_height, img_width)` as in numpy; `scale = 15.0 / max(img_width,
img_height)` and every wall coordinate is multiplied by it. -/
noncomputable def normalize_coordinates (walls : List (ℝ × ℝ × ℝ × ℝ))
    (image_shape : ℝ × ℝ) : List (ℝ × ℝ × ℝ × ℝ) × ℝ :=
  let img_height := image_shape.1
  let img_width := image_shape.2
  let scale := 15 / max img_width img_height
  (walls.map (fun w =>
    (w.1 * scale, w.2.1 * scale, w.2.2.1 * scale, w.2.2.2 * scale)), scale)

/-- Embedding of `FloorPlanTo3D.create_3d_floor` (lines 176–189): one quad spanning
`[0, img_width·scale] × [0, img_height·scale]` at height 0. -/
noncomputable def create_3d_floor (image_shape : ℝ × ℝ) (scale : ℝ) :
    List P3 :=
  [(0, 0, 0), (image_shape.2 * scale, 0, 0),
   (image_shape.2 * scale, image_shape.1 * scale, 0),
   (0, image_shape.1 * scale, 0)]

/-- Scale recomputed by `open_3d_viewer` for doors, windows, staircases and
furniture (`floor_plan_editor.py` lines 1122–1123):
`img_scale = 15.0 / max(img_width, img_height)`. -/
noncomputable def img_scale (img_width img_height : ℝ) : ℝ :=
  15 / max img_width img_height

/-- C3: on a 1000×800 px image (numpy shape (800, 1000)) the scale is
15/1000 = 0.015, the wall (50,50)–(950,50) normalizes to
(0.75,0.75)–(14.25,0.75), and the floor quad spans [0,15] × [0,12]. -/
theorem normalize_example :
    normalize_coordinates [(50, 50, 950, 50)] (800, 1000)
      = ([(0.75, 0.75, 14.25, 0.75)], 0.015) ∧
    create_3d_floor (800, 1000) 0.015
      = [(0, 0, 0), (15, 0, 0), (15, 12, 0), (0, 12, 0)] := by
  have hmax : max (1000 : ℝ) 800 = 1000 := max_eq_left (by norm_num)
  constructor
  · simp only [normalize_coordinates, List.map, hmax, Prod.mk.injEq,
      List.cons.injEq, and_true, List.nil_eq]
    norm_num
  · simp only [create_3d_floor, Prod.mk.injEq, List.cons.injEq]
    norm_num

/-- C9: for every wall list and canvas size, the scale that
`normalize_coordinates` derives from the rendered image's shape
`(canvas_height, canvas_width)` equals the `img_scale` that `open_3d_viewer`
independently computes from the same canvas size, and the normalized walls
are exactly the walls scaled coordinatewise by that common factor. -/
theorem scale_uniform (walls : List (ℝ × ℝ × ℝ × ℝ))
    (canvas_width canvas_height : ℝ) :
    (normalize_coordinates walls (canvas_height, canvas_width)).2
      = img_scale canvas_width canvas_height ∧
    (normalize_coordinates walls (canvas_height, canvas_width)).1
      = walls.map (fun w =>
          (w.1 * img_scale canvas_width canvas_height,
           w.2.1 * img_scale canvas_width canvas_height,
           w.2.2.1 * img_scale canvas_width canvas_height,
           w.2.2.2 * img_scale canvas_width canvas_height)) :=
  ⟨rfl, rfl⟩

/-! ## Opening placement in the 3D viewer (floor_plan_editor.py) -/

/-- Full nearest-wall search (lines 1126–1166): fold over all walls, skipping
zero-length ones, keeping the strictly closest; `(None, None)` when nothing
was found. -/
noncomputable def find_nearest_wall_point (px py : ℝ)
    (walls_list : List (ℝ × ℝ × ℝ × ℝ)) :
    Option (ℝ × ℝ) × Option (ℝ × ℝ) :=
  let best := walls_list.foldl (fun acc w =>
    if wallLen w.1 w.2.1 w.2.2.1 w.2.2.2 = 0 then acc
    else
      let np := nearestOnWall px py w.1 w.2.1 w.2.2.1 w.2.2.2
      let nrm := wallNormal w.1 w.2.1 w.2.2.1 w.2.2.2
      let dist := distToWall px py w.1 w.2.1 w.2.2.1 w.2.2.2
      match acc with
      | none => some (dist, np, nrm)
      | some (dmin, pn) =>
          if dist < dmin then some (dist, np, nrm) else some (dmin, pn)) none
  match best with
  | none => (none, none)
  | some (_, np, nrm) => (some np, some nrm)

/-- 3D door width in meters (line 1192):
`max(0.6, min(1.2, door_width_pixels * img_scale * 0.03))`. -/
noncomputable def doorWidthM (door_width_pixels scale : ℝ) : ℝ :=
  max 0.6 (min 1.2 (door_width_pixels * scale * 0.03))

/-- Geometry emitted for one door by `open_3d_viewer` (lines 1170–1232):
the opening quad and the 45°-open panel quad, or nothing when no wall was
found. -/
noncomputable def door_3d (scale : ℝ) (normalized_walls : List (ℝ × ℝ × ℝ × ℝ))
    (door_x_pixel door_y_pixel door_width_pixels : ℝ) : List (List P3) :=
  let door_x_norm := door_x_pixel * scale
  let door_y_norm := door_y_pixel * scale
  match find_nearest_wall_point door_x_norm door_y_norm normalized_walls with
  | (none, _) => []
  | (some np, wn) =>
    let door_x := np.1
    let door_y := np.2
    let door_width := doorWidthM door_width_pixels scale
    let door_height : ℝ := 2.1
    let wall_thickness : ℝ := 0.2
    let offset_x := match wn with | some n => n.1 * wall_thickness / 2 | none => 0
    let offset_y := match wn with | some n => n.2 * wall_thickness / 2 | none => 0
    let door_opening : List P3 :=
      [(door_x - door_width / 2 + offset_x, door_y + offset_y, 0),
       (door_x + door_width / 2 + offset_x, door_y + offset_y, 0),
       (door_x + door_width / 2 + offset_x, door_y + offset_y, door_height),
       (door_x - door_width / 2 + offset_x, door_y + offset_y, door_height)]
    let cos_a := Real.cos (45 * Real.pi / 180)
    let sin_a := Real.sin (45 * Real.pi / 180)
    let panel_left_x := door_x - door_width / 2 + offset_x
    let panel_left_y := door_y + offset_y
    let panel_right_x := panel_left_x + door_width * cos_a
    let panel_right_y := panel_left_y + door_width * sin_a
    let door_panel : List P3 :=
      [(panel_left_x, panel_left_y, 0),
       (panel_right_x, panel_right_y, 0),
       (panel_right_x, panel_right_y, door_height),
       (panel_left_x, panel_left_y, door_height)]
    [door_opening, door_panel]

/-- Geometry emitted for one window by `open_3d_viewer` (lines 1234–1290):
the opening quad and the frame quad, or nothing when no wall was found. -/
noncomputable def window_3d (scale : ℝ)
    (normalized_walls : List (ℝ × ℝ × ℝ × ℝ))
    (window_x_pixel window_y_pixel : ℝ) : List (List P3) :=
  let window_x_norm := window_x_pixel * scale
  let window_y_norm := window_y_pixel * scale
  match find_nearest_wall_point window_x_norm window_y_norm normalized_walls with
  | (none, _) => []
  | (some np, wn) =>
    let window_x := np.1
    let window_y := np.2
    let window_width : ℝ := 1.2
    let window_height : ℝ := 1.2
    let window_bottom : ℝ := 0.9
    let wall_thickness : ℝ := 0.2
    let offset_x := match wn with | some n => n.1 * wall_thickness / 2 | none => 0
    let offset_y := match wn with | some n => n.2 * wall_thickness / 2 | none => 0
    let window_vertices : List P3 :=
      [(window_x - window_width / 2 + offset_x, window_y + offset_y, window_bottom),
       (window_x + window_width / 2 + offset_x, window_y + offset_y, window_bottom),
       (window_x + window_width / 2 + offset_x, window_y + offset_y,
         window_bottom + window_height),
       (window_x - window_width / 2 + offset_x, window_y + offset_y,
         window_bottom + window_height)]
    let frame_thickness : ℝ := 0.05
    let frame_offset_x :=
      match wn with | some n => n.1 * (wall_thickness / 2 + frame_thickness) | none => 0
    let frame_offset_y :=
      match wn with | some n => n.2 * (wall_thickness / 2 + frame_thickness) | none => 0
    let window_frame : List P3 :=
      [(window_x - window_width / 2 + frame_offset_x, window_y + frame_offset_y,
         window_bottom),
       (window_x + window_width / 2 + frame_offset_x, window_y + frame_offset_y,
         window_bottom),
       (window_x + window_width / 2 + frame_offset_x, window_y + frame_offset_y,
         window_bottom + window_height),
       (window_x - window_width / 2 + frame_offset_x, window_y + frame_offset_y,
         window_bottom + window_height)]
    [window_vertices, window_frame]

/-- C7: with an empty wall list the nearest-wall search returns
`(None, None)` and every door or window anchor is silently discarded —
no opening, panel or frame geometry is emitted and no error is raised. -/
theorem no_walls_discards_openings :
    (∀ px py : ℝ, find_nearest_wall_point px py [] = (none, none)) ∧
    (∀ s dx dy dw : ℝ, door_3d s [] dx dy dw = []) ∧
    (∀ s wx wy : ℝ, window_3d s [] wx wy = []) :=
  ⟨fun _ _ => rfl, fun _ _ _ _ => rfl, fun _ _ _ => rfl⟩

/-- C10: at the default 1000×700 canvas the viewer's scale is 0.015, so an
editor door width in [15, 80] px maps to at most 0.036 m, strictly below the
0.6 m lower clamp; the exported door width is therefore exactly 0.6 m. -/
theorem door_width_saturates (w : ℝ) (h1 : 15 ≤ w) (h2 : w ≤ 80) :
    w * img_scale 1000 700 * 0.03 ≤ 0.036 ∧ (0.036 : ℝ) < 0.6 ∧
    doorWidthM w (img_scale 1000 700) = 0.6 := by
  have hs : img_scale 1000 700 = 0.015 := by
    rw [img_scale, max_eq_left (by norm_num)]; norm_num
  refine ⟨by rw [hs]; nlinarith, by norm_num, ?_⟩
  rw [doorWidthM, hs, min_eq_right (by nlinarith), max_eq_left (by nlinarith)]

/-- Witness for C10 at an authored door width of 30 px. -/
theorem door_width_saturates_witness :
    30 * img_scale 1000 700 * 0.03 ≤ 0.036 ∧ (0.036 : ℝ) < 0.6 ∧
    doorWidthM 30 (img_scale 1000 700) = 0.6 :=
  door_width_saturates 30 (by norm_num) (by norm_num)

/-! ## Editor model (floor_plan_editor.py), over ℚ -/

/-- Python's `round` on a number: round half to even. -/
def pythonRound (q : ℚ) : ℤ :=
  if q - ⌊q⌋ < 1/2 then ⌊q⌋
  else if 1/2 < q - ⌊q⌋ then ⌊q⌋ + 1
  else if ⌊q⌋ % 2 = 0 then ⌊q⌋ else ⌊q⌋ + 1

/-- Grid snapping with the editor's fixed `grid_size = 20`:
`round(v / self.grid_size) * self.grid_size`. -/
def snap20 (q : ℚ) : ℚ := (pythonRound (q / 20) : ℚ) * 20

/-- One canvas graphical primitive: its tkinter id, tags, and coordinates.
The displayed text of text items is not modeled. -/
structure CanvasItem where
  id : ℕ
  tags : List String
  coords : List ℚ
deriving DecidableEq

/-- One wall record of `self.walls`: `(x1, y1, x2, y2, wall_id)`. -/
structure WallR where
  x1 : ℚ
  y1 : ℚ
  x2 : ℚ
  y2 : ℚ
  id : ℕ
deriving DecidableEq

/-- One room record of `self.rooms`: `(x1, y1, x2, y2, room_id)`. -/
structure RoomR where
  x1 : ℚ
  y1 : ℚ
  x2 : ℚ
  y2 : ℚ
  id : ℕ
deriving DecidableEq

/-- One door record of `self.doors`:
`(x, y, width, door_id, handle1, handle2, angle)`. -/
structure DoorR where
  x : ℚ
  y : ℚ
  width : ℚ
  arc : ℕ
  h1 : ℕ
  h2 : ℕ
  angle : ℚ
deriving DecidableEq

/-- One window record of `self.windows`: `(x, y, window_id)`. -/
structure WindowR where
  x : ℚ
  y : ℚ
  id : ℕ
deriving DecidableEq

/-- One staircase record of `self.staircases`:
`(x1, y1, x2, y2, direction, stair_id)`. -/
structure StairR where
  x1 : ℚ
  y1 : ℚ
  x2 : ℚ
  y2 : ℚ
  horizontal : Bool
  id : ℕ
deriving DecidableEq

/-- One furniture record of `self.furniture`:
`(type, x, y, width, height, rotation, item_id)`. -/
structure FurnR where
  ftype : String
  x : ℚ
  y : ℚ
  width : ℚ
  height : ℚ
  rot : ℚ
  id : ℕ
deriving DecidableEq

/-- The editor's authoritative in-memory state: the entity collections, the
measurement-label list, the canvas primitives, a fresh-id counter for
`canvas.create_*`, and the `show_measurements` flag. -/
structure EditorState where
  walls : List WallR
  rooms : List RoomR
  doors : List DoorR
  windows : List WindowR
  staircases : List StairR
  furniture : List FurnR
  measurementLabels : List ℕ
  canvas : List CanvasItem
  nextId : ℕ
  showMeasurements : Bool
deriving DecidableEq

/-- The empty editor model right after startup (no grid/ruler decorations). -/
def emptyState : EditorState :=
  ⟨[], [], [], [], [], [], [], [], 1, true⟩

/-- The 2D segment of a wall record, forgetting the canvas id. -/
def WallR.seg (w : WallR) : ℚ × ℚ × ℚ × ℚ := (w.x1, w.y1, w.x2, w.y2)

/-- The rectangle of a room record, forgetting the canvas id. -/
def RoomR.rect (r : RoomR) : ℚ × ℚ × ℚ × ℚ := (r.x1, r.y1, r.x2, r.y2)

/-- Embedding of `FloorPlanEditor.add_wall` (lines 646–684): snap both endpoints to the
grid, create the canvas line, append the wall record, and (when measurements
are shown) create the measurement label. -/
def add_wall (s : EditorState) (x1 y1 x2 y2 : ℚ) : EditorState :=
  let x1s := snap20 x1
  let y1s := snap20 y1
  let x2s := snap20 x2
  let y2s := snap20 y2
  let wallId := s.nextId
  let s1 : EditorState := { s with
    walls := s.walls ++ [⟨x1s, y1s, x2s, y2s, wallId⟩],
    canvas := s.canvas ++ [⟨wallId, ["wall"], [x1s, y1s, x2s, y2s]⟩],
    nextId := wallId + 1 }
  if s.showMeasurements then
    let mid_x := (x1s + x2s) / 2
    let mid_y := (y1s + y2s) / 2
    let dx := x2s - x1s
    let dy := y2s - y1s
    let label_x := if |dy| < |dx| then mid_x else mid_x - 15
    let label_y := if |dy| < |dx| then mid_y - 15 else mid_y
    let labelId := s1.nextId
    { s1 with
      canvas := s1.canvas ++ [⟨labelId, ["wall", "measurement"], [label_x, label_y]⟩],
      measurementLabels := s1.measurementLabels ++ [labelId],
      nextId := labelId + 1 }
  else s1

/-- Embedding of `FloorPlanEditor.add_room` (lines 686–752): order and snap the corners,
discard when the snapped rectangle is under 20×20, otherwise synthesize the
four surrounding walls, create the inset room rectangle (and measurement
label), and append the room record. -/
def add_room (s : EditorState) (rx1 ry1 rx2 ry2 : ℚ) : EditorState :=
  let x1 := snap20 (min rx1 rx2)
  let y1 := snap20 (min ry1 ry2)
  let x2 := snap20 (max rx1 rx2)
  let y2 := snap20 (max ry1 ry2)
  if |x2 - x1| < 20 ∨ |y2 - y1| < 20 then s
  else
    let s1 := add_wall s x1 y1 x2 y1
    let s2 := add_wall s1 x1 y2 x2 y2
    let s3 := add_wall s2 x1 y1 x1 y2
    let s4 := add_wall s3 x2 y1 x2 y2
    let roomId := s4.nextId
    let s5 : EditorState := { s4 with
      canvas := s4.canvas ++ [⟨roomId, ["room"], [x1 + 3, y1 + 3, x2 - 3, y2 - 3]⟩],
      nextId := roomId + 1 }
    let s6 : EditorState :=
      if s5.showMeasurements then
        let labelId := s5.nextId
        { s5 with
          canvas := s5.canvas ++
            [⟨labelId, ["room", "measurement"], [(x1 + x2) / 2, (y1 + y2) / 2]⟩],
          measurementLabels := s5.measurementLabels ++ [labelId],
          nextId := labelId + 1 }
      else s5
    { s6 with rooms := s6.rooms ++ [⟨x1, y1, x2, y2, roomId⟩] }

/-- The room branch of `FloorPlanEditor.on_release` (lines 616–619): the room
is committed only when both raw gesture extents strictly exceed 20 units. -/
def on_release_room (s : EditorState) (start_x start_y x y : ℚ) : EditorState :=
  if 20 < |x - start_x| ∧ 20 < |y - start_y| then add_room s start_x start_y x y
  else s

/-- Embedding of `FloorPlanEditor.add_door` (lines 754–775): a door arc of default width
30 with two red resize handles. -/
def add_door (s : EditorState) (x y : ℚ) : EditorState :=
  let door_width : ℚ := 30
  let doorId := s.nextId
  let handle1 := doorId + 1
  let handle2 := doorId + 2
  { s with
    doors := s.doors ++ [⟨x, y, door_width, doorId, handle1, handle2, 0⟩],
    canvas := s.canvas ++
      [⟨doorId, ["door"], [x - door_width/2, y - door_width/2,
          x + door_width/2, y + door_width/2]⟩,
       ⟨handle1, ["door", "handle", "left"],
         [x - door_width/2 - 5/2, y - 5/2, x - door_width/2 + 5/2, y + 5/2]⟩,
       ⟨handle2, ["door", "handle", "right"],
         [x + door_width/2 - 5/2, y - 5/2, x + door_width/2 + 5/2, y + 5/2]⟩],
    nextId := handle2 + 1 }

/-- Embedding of `FloorPlanEditor.add_window` (lines 777–785). -/
def add_window (s : EditorState) (x y : ℚ) : EditorState :=
  let window_size : ℚ := 30
  let windowId := s.nextId
  { s with
    windows := s.windows ++ [⟨x, y, windowId⟩],
    canvas := s.canvas ++
      [⟨windowId, ["window"], [x - window_size/2, y - window_size/2,
          x + window_size/2, y + window_size/2]⟩],
    nextId := windowId + 1 }

/-- New door width under a resize drag (line 555):
`max(15, min(80, door_width + dx * 2))`. -/
def resize_width (door_width dx : ℚ) : ℚ :=
  max 15 (min 80 (door_width + dx * 2))

/-- Replace the coordinates of the canvas item `cid`
(`self.canvas.coords(cid, ...)`). -/
def canvasSetCoords (canvas : List CanvasItem) (cid : ℕ) (cs : List ℚ) :
    List CanvasItem :=
  canvas.map (fun ci => if ci.id = cid then { ci with coords := cs } else ci)

/-- The door-resize branch of `FloorPlanEditor.on_drag` (lines 549–573):
recompute the width from the drag delta, move the arc and both handles, and
store the updated record; the anchor `(x, y)` is left unchanged. -/
def on_drag_door (s : EditorState) (i : ℕ) (start_x x : ℚ) : EditorState :=
  match s.doors[i]? with
  | none => s
  | some dd =>
    let new_width := resize_width dd.width (x - start_x)
    let c1 := canvasSetCoords s.canvas dd.arc
      [dd.x - new_width/2, dd.y - new_width/2, dd.x + new_width/2, dd.y + new_width/2]
    let c2 := canvasSetCoords c1 dd.h1
      [dd.x - new_width/2 - 5/2, dd.y - 5/2, dd.x - new_width/2 + 5/2, dd.y + 5/2]
    let c3 := canvasSetCoords c2 dd.h2
      [dd.x + new_width/2 - 5/2, dd.y - 5/2, dd.x + new_width/2 + 5/2, dd.y + 5/2]
    { s with
      doors := s.doors.set i { dd with width := new_width },
      canvas := c3 }

/-- Python `int()` on a rational value: truncation toward zero. -/
def pyIntQ (q : ℚ) : ℤ := if q < 0 then ⌈q⌉ else ⌊q⌋

/-- Editor staircase step count (lines 854 and 1011):
`max(3, min(10, int(max(width, height) / 15)))`. -/
def editor_num_steps (width height : ℚ) : ℤ :=
  max 3 (min 10 (pyIntQ (max width height / 15)))

/-- Python `int()` on a real value: truncation toward zero. -/
noncomputable def pyIntR (x : ℝ) : ℤ := if x < 0 then ⌈x⌉ else ⌊x⌋

/-- 3D-stage staircase step count (line 1303), computed in the scaled
coordinate space: `max(3, min(15, int(max(stair_width, stair_depth) / 0.3)))`. -/
noncomputable def viewer_num_steps (stair_width stair_depth : ℝ) : ℤ :=
  max 3 (min 15 (pyIntR (max stair_width stair_depth / 0.3)))

/-! ## Erase (floor_plan_editor.py, erase_at, lines 874–944) -/

/-- Model of `self.canvas.gettags(item)`: the tags of a live item, `()` for a deleted
or unknown id. -/
def getTags (canvas : List CanvasItem) (item : ℕ) : List String :=
  match canvas.find? (fun ci => ci.id == item) with
  | some ci => ci.tags
  | none => []

/-- Model of `self.canvas.delete(item)`. -/
def canvasDelete (canvas : List CanvasItem) (item : ℕ) : List CanvasItem :=
  canvas.filter (fun ci => ci.id != item)

/-- Position test of the furniture-erase cascade (lines 932–939): the item's
centre (midpoint of a 4-coordinate box, else its first point) is within 5
units of the furniture anchor. -/
def coordsNear (cs : List ℚ) (fx fy : ℚ) : Bool :=
  match cs with
  | c0 :: c1 :: c2 :: c3 :: _ =>
      decide (|(c0 + c2) / 2 - fx| < 5 ∧ |(c1 + c3) / 2 - fy| < 5)
  | c0 :: c1 :: _ => decide (|c0 - fx| < 5 ∧ |c1 - fy| < 5)
  | _ => false

/-- Embedding of `FloorPlanEditor.erase_at` (lines 874–944), applied to the list of
overlapping item ids returned by the canvas hit-test.  Each item is
dispatched on its first matching type tag; the first matching owning record
is popped with its cascaded canvas deletions, and the item itself is always
deleted (the furniture branch returns early, ending the scan). -/
def erase_at : EditorState → List ℕ → EditorState
  | s, [] => s
  | s, item :: rest =>
    if "temp" ∈ getTags s.canvas item then erase_at s rest
    else if "wall" ∈ getTags s.canvas item then
      erase_at { s with walls := s.walls.eraseP (fun w => w.id == item),
                        canvas := canvasDelete s.canvas item } rest
    else if "room" ∈ getTags s.canvas item then
      erase_at { s with rooms := s.rooms.eraseP (fun r => r.id == item),
                        canvas := canvasDelete s.canvas item } rest
    else if "door" ∈ getTags s.canvas item then
      match s.doors.find? (fun dd => dd.arc == item || dd.h1 == item || dd.h2 == item) with
      | some dd =>
          erase_at { s with
            doors := s.doors.eraseP
              (fun dd2 => dd2.arc == item || dd2.h1 == item || dd2.h2 == item),
            canvas := canvasDelete (canvasDelete (canvasDelete
              (canvasDelete s.canvas dd.arc) dd.h1) dd.h2) item } rest
      | none => erase_at { s with canvas := canvasDelete s.canvas item } rest
    else if "window" ∈ getTags s.canvas item then
      erase_at { s with windows := s.windows.eraseP (fun w => w.id == item),
                        canvas := canvasDelete s.canvas item } rest
    else if "staircase" ∈ getTags s.canvas item then
      match s.staircases.find? (fun st => st.id == item) with
      | some _ =>
          erase_at { s with
            staircases := s.staircases.eraseP (fun st => st.id == item),
            canvas := canvasDelete
              (s.canvas.filter (fun ci => ci.tags != (["staircase"] : List String)))
              item } rest
      | none => erase_at { s with canvas := canvasDelete s.canvas item } rest
    else if "furniture" ∈ getTags s.canvas item then
      match s.furniture.find? (fun f => f.id == item) with
      | some f =>
          { s with
            furniture := s.furniture.eraseP (fun g => g.id == item),
            canvas := s.canvas.filter (fun ci =>
              !(ci.tags.contains "furniture" && coordsNear ci.coords f.x f.y)) }
      | none => erase_at { s with canvas := canvasDelete s.canvas item } rest
    else erase_at { s with canvas := canvasDelete s.canvas item } rest

/-! ## C5: door resize -/

/-- C5: the resized door width is monotone in the drag delta and clamped to
[15, 80], and the resize leaves the door's anchor (and everything except the
width) unchanged. -/
theorem door_resize_spec (s : EditorState) (i : ℕ) (start_x x x' w : ℚ)
    (hx : x ≤ x') :
    resize_width w (x - start_x) ≤ resize_width w (x' - start_x) ∧
    15 ≤ resize_width w (x - start_x) ∧
    resize_width w (x - start_x) ≤ 80 ∧
    ∀ dd, s.doors[i]? = some dd →
      (on_drag_door s i start_x x).doors[i]? =
        some { dd with width := resize_width dd.width (x - start_x) } := by
  refine ⟨?_, le_max_left _ _, max_le (by norm_num) (min_le_left _ _), ?_⟩
  · exact max_le_max le_rfl (min_le_min le_rfl (by linarith))
  · intro dd hdd
    have hi : i < s.doors.length := by
      by_contra hlt
      rw [List.getElem?_eq_none (by omega)] at hdd
      exact Option.noConfusion hdd
    simp only [on_drag_door, hdd]
    rw [List.getElem?_set_self hi]

/-- Witness for C5 on a freshly placed door of default width 30, dragged by
1 then by 2 units. -/
theorem door_resize_spec_witness :
    (resize_width 30 (1 - 0) ≤ resize_width 30 (2 - 0)) ∧
    15 ≤ resize_width 30 (1 - 0) ∧
    resize_width 30 (1 - 0) ≤ 80 ∧
    (on_drag_door (add_door emptyState 100 100) 0 0 1).doors[0]? =
      some ⟨100, 100, resize_width 30 (1 - 0), 1, 2, 3, 0⟩ := by
  have h := door_resize_spec (add_door emptyState 100 100) 0 0 1 2 30 (by norm_num)
  exact ⟨h.1, h.2.1, h.2.2.1, h.2.2.2 ⟨100, 100, 30, 1, 2, 3, 0⟩ (by decide)⟩

/-! ## C6: staircase step counts -/

/-- C6: the editor step count is `clamp(int(max(w,h)/15), 3, 10)`; a 150-unit
staircase gets 10 steps (max clamp), a 45-unit one gets 3; the editor count
always lies in [3, 10] and the 3D-stage count always lies in [3, 15]. -/
theorem staircase_steps_spec :
    (∀ h' : ℚ, h' ≤ 150 → editor_num_steps 150 h' = 10) ∧
    (∀ h' : ℚ, h' ≤ 45 → editor_num_steps 45 h' = 3) ∧
    (∀ w h : ℚ, 3 ≤ editor_num_steps w h ∧ editor_num_steps w h ≤ 10) ∧
    (∀ w d : ℝ, 3 ≤ viewer_num_steps w d ∧ viewer_num_steps w d ≤ 15) := by
  refine ⟨?_, ?_, ?_, ?_⟩
  · intro h' hh
    have hval : pyIntQ (150 / 15 : ℚ) = 10 := by
      rw [pyIntQ, if_neg (by norm_num)]
      norm_num
    rw [editor_num_steps, max_eq_left hh, hval]
    decide
  · intro h' hh
    have hval : pyIntQ (45 / 15 : ℚ) = 3 := by
      rw [pyIntQ, if_neg (by norm_num)]
      norm_num
    rw [editor_num_steps, max_eq_left hh, hval]
    decide
  · exact fun w h => ⟨le_max_left _ _, max_le (by norm_num) (min_le_left _ _)⟩
  · exact fun w d => ⟨le_max_left _ _, max_le (by norm_num) (min_le_left _ _)⟩

/-- Witness for C6 at staircases of extents 150×100 and 45×20, and concrete
bounds instances. -/
theorem staircase_steps_spec_witness :
    editor_num_steps 150 100 = 10 ∧ editor_num_steps 45 20 = 3 ∧
    (3 ≤ editor_num_steps 7 200 ∧ editor_num_steps 7 200 ≤ 10) ∧
    (3 ≤ viewer_num_steps 1 2 ∧ viewer_num_steps 1 2 ≤ 15) :=
  ⟨staircase_steps_spec.1 100 (by norm_num),
   staircase_steps_spec.2.1 20 (by norm_num),
   staircase_steps_spec.2.2.1 7 200,
   staircase_steps_spec.2.2.2 1 2⟩

/-! ## C4: room commit -/

lemma pythonRound_intCast (k : ℤ) : pythonRound (k : ℚ) = k := by
  rw [pythonRound]
  norm_num

lemma pythonRound_le (q : ℚ) : (pythonRound q : ℚ) ≤ q + 1/2 := by
  have hfl := Int.floor_le q
  have hlt := Int.lt_floor_add_one q
  rw [pythonRound]
  split_ifs with h1 h2 h3 <;> push_cast <;> linarith

lemma le_pythonRound (q : ℚ) : q - 1/2 ≤ (pythonRound q : ℚ) := by
  have hfl := Int.floor_le q
  have hlt := Int.lt_floor_add_one q
  rw [pythonRound]
  split_ifs with h1 h2 h3 <;> push_cast <;> linarith

lemma snap20_snap20 (q : ℚ) : snap20 (snap20 q) = snap20 q := by
  rw [snap20, snap20]
  have h : ((pythonRound (q / 20) : ℚ) * 20) / 20 = (pythonRound (q / 20) : ℚ) := by
    field_simp
  rw [h, pythonRound_intCast]

/-- A raw extent strictly above 20 cannot collapse below 20 under grid
snapping: the snapped extent is a positive multiple of the grid unit. -/
lemma snap20_gap {a b : ℚ} (h : 20 < b - a) : 20 ≤ snap20 b - snap20 a := by
  have h1 := le_pythonRound (b / 20)
  have h2 := pythonRound_le (a / 20)
  have hlt : (pythonRound (a / 20) : ℚ) < (pythonRound (b / 20) : ℚ) := by
    linarith
  have hz : pythonRound (a / 20) < pythonRound (b / 20) := by exact_mod_cast hlt
  have hz1 : pythonRound (a / 20) + 1 ≤ pythonRound (b / 20) := hz
  have : (pythonRound (a / 20) : ℚ) + 1 ≤ (pythonRound (b / 20) : ℚ) := by
    exact_mod_cast hz1
  rw [snap20, snap20]
  linarith

/-- Union bounding box of a list of wall segments. -/
def bboxWalls : List (ℚ × ℚ × ℚ × ℚ) → Option (ℚ × ℚ × ℚ × ℚ)
  | [] => none
  | w :: ws => some (ws.foldl (fun r w2 =>
      (min r.1 (min w2.1 w2.2.2.1), min r.2.1 (min w2.2.1 w2.2.2.2),
       max r.2.2.1 (max w2.1 w2.2.2.1), max r.2.2.2 (max w2.2.1 w2.2.2.2)))
      (min w.1 w.2.2.1, min w.2.1 w.2.2.2, max w.1 w.2.2.1, max w.2.1 w.2.2.2))

lemma add_wall_walls_seg (s : EditorState) (x1 y1 x2 y2 : ℚ) :
    (add_wall s x1 y1 x2 y2).walls.map WallR.seg =
      s.walls.map WallR.seg ++ [(snap20 x1, snap20 y1, snap20 x2, snap20 y2)] := by
  rw [add_wall]
  split_ifs <;> simp [WallR.seg]

lemma add_wall_rooms (s : EditorState) (x1 y1 x2 y2 : ℚ) :
    (add_wall s x1 y1 x2 y2).rooms = s.rooms := by
  rw [add_wall]; split_ifs <;> rfl

lemma add_wall_doors (s : EditorState) (x1 y1 x2 y2 : ℚ) :
    (add_wall s x1 y1 x2 y2).doors = s.doors := by
  rw [add_wall]; split_ifs <;> rfl

lemma add_wall_windows (s : EditorState) (x1 y1 x2 y2 : ℚ) :
    (add_wall s x1 y1 x2 y2).windows = s.windows := by
  rw [add_wall]; split_ifs <;> rfl

lemma add_wall_staircases (s : EditorState) (x1 y1 x2 y2 : ℚ) :
    (add_wall s x1 y1 x2 y2).staircases = s.staircases := by
  rw [add_wall]; split_ifs <;> rfl

lemma add_wall_furniture (s : EditorState) (x1 y1 x2 y2 : ℚ) :
    (add_wall s x1 y1 x2 y2).furniture = s.furniture := by
  rw [add_wall]; split_ifs <;> rfl

lemma twenty_lt_span {u v : ℚ} (h : 20 < |v - u|) : 20 < max u v - min u v := by
  rcases le_total u v with hle | hle
  · rw [max_eq_right hle, min_eq_left hle]
    rwa [abs_of_nonneg (by linarith)] at h
  · rw [max_eq_left hle, min_eq_right hle]
    rw [abs_of_nonpos (by linarith)] at h
    linarith

lemma add_room_components (s : EditorState) (rx1 ry1 rx2 ry2 : ℚ)
    (hguard : ¬ (|snap20 (max rx1 rx2) - snap20 (min rx1 rx2)| < 20 ∨
      |snap20 (max ry1 ry2) - snap20 (min ry1 ry2)| < 20)) :
    (add_room s rx1 ry1 rx2 ry2).walls.map WallR.seg =
      s.walls.map WallR.seg ++
        [(snap20 (min rx1 rx2), snap20 (min ry1 ry2),
           snap20 (max rx1 rx2), snap20 (min ry1 ry2)),
         (snap20 (min rx1 rx2), snap20 (max ry1 ry2),
           snap20 (max rx1 rx2), snap20 (max ry1 ry2)),
         (snap20 (min rx1 rx2), snap20 (min ry1 ry2),
           snap20 (min rx1 rx2), snap20 (max ry1 ry2)),
         (snap20 (max rx1 rx2), snap20 (min ry1 ry2),
           snap20 (max rx1 rx2), snap20 (max ry1 ry2))] ∧
    (add_room s rx1 ry1 rx2 ry2).rooms.map RoomR.rect =
      s.rooms.map RoomR.rect ++
        [(snap20 (min rx1 rx2), snap20 (min ry1 ry2),
           snap20 (max rx1 rx2), snap20 (max ry1 ry2))] ∧
    (add_room s rx1 ry1 rx2 ry2).doors = s.doors ∧
    (add_room s rx1 ry1 rx2 ry2).windows = s.windows ∧
    (add_room s rx1 ry1 rx2 ry2).staircases = s.staircases ∧
    (add_room s rx1 ry1 rx2 ry2).furniture = s.furniture := by
  rw [add_room]
  dsimp only
  rw [if_neg hguard]
  split_ifs with hm <;>
    refine ⟨?_, ?_, ?_, ?_, ?_, ?_⟩ <;>
    simp [add_wall_walls_seg, add_wall_rooms, add_wall_doors, add_wall_windows,
      add_wall_staircases, add_wall_furniture, snap20_snap20, RoomR.rect]

/-- C4 (corrected): a room gesture is committed exactly when both raw extents
strictly exceed 20 units; it then appends exactly four wall segments — the
sides of the snapped rectangle — whose union bounding box is that snapped
rectangle, appends the room record, and touches no other collection; any
other gesture leaves the model completely unchanged. -/
theorem room_commit_spec (s : EditorState) (sx sy x y : ℚ) (a b c d : ℚ)
    (ha : a = snap20 (min sx x)) (hb : b = snap20 (min sy y))
    (hc : c = snap20 (max sx x)) (hd : d = snap20 (max sy y)) :
    (20 < |x - sx| → 20 < |y - sy| →
      (on_release_room s sx sy x y).walls.map WallR.seg =
        s.walls.map WallR.seg ++
          [(a, b, c, b), (a, d, c, d), (a, b, a, d), (c, b, c, d)] ∧
      bboxWalls [(a, b, c, b), (a, d, c, d), (a, b, a, d), (c, b, c, d)] =
        some (a, b, c, d) ∧
      (on_release_room s sx sy x y).rooms.map RoomR.rect =
        s.rooms.map RoomR.rect ++ [(a, b, c, d)] ∧
      (on_release_room s sx sy x y).doors = s.doors ∧
      (on_release_room s sx sy x y).windows = s.windows ∧
      (on_release_room s sx sy x y).staircases = s.staircases ∧
      (on_release_room s sx sy x y).furniture = s.furniture) ∧
    (¬ (20 < |x - sx| ∧ 20 < |y - sy|) → on_release_room s sx sy x y = s) := by
  constructor
  · intro hgx hgy
    have hxac : 20 ≤ c - a := by
      rw [ha, hc]
      exact snap20_gap (twenty_lt_span hgx)
    have hybd : 20 ≤ d - b := by
      rw [hb, hd]
      exact snap20_gap (twenty_lt_span hgy)
    have hac : a ≤ c := by linarith
    have hbd : b ≤ d := by linarith
    have hguard : ¬ (|snap20 (max sx x) - snap20 (min sx x)| < 20 ∨
        |snap20 (max sy y) - snap20 (min sy y)| < 20) := by
      rw [← ha, ← hc, ← hb, ← hd]
      push_neg
      constructor
      · rw [abs_of_nonneg (by linarith)]; linarith
      · rw [abs_of_nonneg (by linarith)]; linarith
    have hrel : on_release_room s sx sy x y = add_room s sx sy x y := by
      rw [on_release_room, if_pos ⟨hgx, hgy⟩]
    have hcomp := add_room_components s sx sy x y hguard
    rw [← ha, ← hb, ← hc, ← hd] at hcomp
    refine ⟨by rw [hrel]; exact hcomp.1, ?_, by rw [hrel]; exact hcomp.2.1,
      by rw [hrel]; exact hcomp.2.2.1, by rw [hrel]; exact hcomp.2.2.2.1,
      by rw [hrel]; exact hcomp.2.2.2.2.1, by rw [hrel]; exact hcomp.2.2.2.2.2⟩
    simp only [bboxWalls, List.foldl, min_self, max_self, min_eq_left hac,
      max_eq_right hac, max_eq_left hac, min_eq_left hbd, max_eq_right hbd,
      max_eq_left hbd]
  · intro hng
    rw [on_release_room, if_neg hng]

/-- Witness for C4 (corrected): a 50×30 gesture from the origin commits four
walls and one room; a 5×5 gesture leaves the model unchanged. -/
theorem room_commit_spec_witness :
    (on_release_room emptyState 0 0 50 30).walls.map WallR.seg =
      emptyState.walls.map WallR.seg ++
        [(snap20 (min 0 50), snap20 (min 0 30), snap20 (max 0 50), snap20 (min 0 30)),
         (snap20 (min 0 50), snap20 (max 0 30), snap20 (max 0 50), snap20 (max 0 30)),
         (snap20 (min 0 50), snap20 (min 0 30), snap20 (min 0 50), snap20 (max 0 30)),
         (snap20 (max 0 50), snap20 (min 0 30), snap20 (max 0 50), snap20 (max 0 30))] ∧
    (on_release_room emptyState 0 0 50 30).rooms.map RoomR.rect =
      emptyState.rooms.map RoomR.rect ++
        [(snap20 (min 0 50), snap20 (min 0 30), snap20 (max 0 50), snap20 (max 0 30))] ∧
    on_release_room emptyState 0 0 5 5 = emptyState := by
  have h := room_commit_spec emptyState 0 0 50 30 _ _ _ _ rfl rfl rfl rfl
  have h1 := h.1 (by norm_num) (by norm_num)
  have h2 := room_commit_spec emptyState 0 0 5 5 _ _ _ _ rfl rfl rfl rfl
  refine ⟨h1.1, h1.2.2.1, h2.2 ?_⟩
  intro hcon
  have := hcon.1
  norm_num at this

/-- Counterexample to C4 as stated: a gesture of width exactly 20 (and height
30) has both extents at least 20, yet the release handler discards it — no
wall or room is created, contradicting the claimed 4 new wall records. -/
theorem room_commit_cex :
    (20 ≤ |(20 : ℚ) - 0| ∧ 20 ≤ |(30 : ℚ) - 0|) ∧
    on_release_room emptyState 0 0 20 30 = emptyState ∧
    (on_release_room emptyState 0 0 20 30).walls = [] := by
  have hst : on_release_room emptyState 0 0 20 30 = emptyState := by
    rw [on_release_room, if_neg]
    intro hcon
    have := hcon.1
    norm_num at this
  exact ⟨⟨by norm_num, by norm_num⟩, hst, by rw [hst]; rfl⟩

/-! ## C8: erase on a door -/

lemma find?_eq_some_unique {α : Type} (p : α → Bool) (l : List α) (a : α)
    (ha : a ∈ l) (hpa : p a = true)
    (huniq : ∀ b ∈ l, p b = true → b = a) : l.find? p = some a := by
  induction l with
  | nil => cases ha
  | cons hd tl ih =>
    by_cases hp : p hd = true
    · rw [List.find?_cons_of_pos _ hp, huniq hd (List.mem_cons_self _ _) hp]
    · rw [List.find?_cons_of_neg _ hp]
      refine ih ?_ fun b hb hpb => huniq b (List.mem_cons_of_mem _ hb) hpb
      rcases List.mem_cons.mp ha with rfl | h
      · exact absurd hpa hp
      · exact h

lemma eraseP_eq_erase {α : Type} [DecidableEq α] (p : α → Bool) (l : List α)
    (a : α) (hpa : p a = true)
    (huniq : ∀ b ∈ l, p b = true → b = a) : l.eraseP p = l.erase a := by
  induction l with
  | nil => rfl
  | cons hd tl ih =>
    by_cases hp : p hd = true
    · have hda : hd = a := huniq hd (List.mem_cons_self _ _) hp
      subst hda
      rw [List.eraseP_cons_of_pos hp, List.erase_cons_head]
    · have hda : hd ≠ a := fun h => hp (h ▸ hpa)
      rw [List.eraseP_cons_of_neg hp,
        List.erase_cons_tail (by simpa using hda),
        ih fun b hb hpb => huniq b (List.mem_cons_of_mem _ hb) hpb]

lemma mem_canvasDelete {X : List CanvasItem} {it : ℕ} {ci : CanvasItem}
    (h : ci ∈ canvasDelete X it) : ci ∈ X ∧ ci.id ≠ it := by
  rw [canvasDelete, List.mem_filter] at h
  exact ⟨h.1, by simpa using h.2⟩

lemma canvasDelete_absent {X : List CanvasItem} {it : ℕ}
    (h : ∀ ci ∈ X, ci.id ≠ it) : canvasDelete X it = X := by
  rw [canvasDelete]
  refine List.filter_eq_self.mpr fun ci hci => by simpa using h ci hci

lemma getTags_eq_nil {X : List CanvasItem} {it : ℕ}
    (h : ∀ ci ∈ X, ci.id ≠ it) : getTags X it = [] := by
  rw [getTags]
  have hfind : X.find? (fun ci => ci.id == it) = none :=
    List.find?_eq_none.mpr fun ci hci => by simpa using h ci hci
  rw [hfind]

lemma erase_at_untouched (s : EditorState) (items : List ℕ)
    (h : ∀ it ∈ items, ∀ ci ∈ s.canvas, ci.id ≠ it) : erase_at s items = s := by
  induction items with
  | nil => rfl
  | cons it rest ih =>
    have hit := h it (List.mem_cons_self _ _)
    have htags : getTags s.canvas it = [] := getTags_eq_nil hit
    have hdel : canvasDelete s.canvas it = s.canvas := canvasDelete_absent hit
    have hrest : ∀ it2 ∈ rest, ∀ ci ∈ s.canvas, ci.id ≠ it2 :=
      fun it2 hit2 => h it2 (List.mem_cons_of_mem _ hit2)
    simp only [erase_at, htags, List.not_mem_nil, if_false]
    rw [hdel]
    exact ih hrest

lemma canvasDelete_redundant (X : List CanvasItem) (a b c it : ℕ)
    (h : it = a ∨ it = b ∨ it = c) :
    canvasDelete (canvasDelete (canvasDelete (canvasDelete X a) b) c) it =
      canvasDelete (canvasDelete (canvasDelete X a) b) c := by
  apply canvasDelete_absent
  intro ci hci
  rcases h with rfl | rfl | rfl
  · exact (mem_canvasDelete (mem_canvasDelete (mem_canvasDelete hci).1).1).2
  · exact (mem_canvasDelete (mem_canvasDelete hci).1).2
  · exact (mem_canvasDelete hci).2

/-- C8 (corrected): when an erase hit-test returns only items belonging to one
door `d` (its arc or its two handles), with consistent canvas tags and no
other door record owning any hit item, then exactly that one door record is
removed, exactly its arc and two handle graphics are deleted from the canvas,
and all walls, rooms, windows, staircases, furniture and remaining doors are
left untouched. -/
theorem erase_door_spec (s : EditorState) (d : DoorR) (items : List ℕ)
    (hd : d ∈ s.doors) (hne : items ≠ [])
    (hmemb : ∀ it ∈ items, it = d.arc ∨ it = d.h1 ∨ it = d.h2)
    (htags1 : getTags s.canvas d.arc = ["door"])
    (htags2 : getTags s.canvas d.h1 = ["door", "handle", "left"])
    (htags3 : getTags s.canvas d.h2 = ["door", "handle", "right"])
    (huniq : ∀ d2 ∈ s.doors, ∀ it ∈ items,
      (d2.arc = it ∨ d2.h1 = it ∨ d2.h2 = it) → d2 = d) :
    (erase_at s items).doors = s.doors.erase d ∧
    (erase_at s items).doors.length + 1 = s.doors.length ∧
    (erase_at s items).walls = s.walls ∧
    (erase_at s items).rooms = s.rooms ∧
    (erase_at s items).windows = s.windows ∧
    (erase_at s items).staircases = s.staircases ∧
    (erase_at s items).furniture = s.furniture ∧
    (erase_at s items).canvas =
      canvasDelete (canvasDelete (canvasDelete s.canvas d.arc) d.h1) d.h2 := by
  obtain ⟨it0, rest, rfl⟩ : ∃ it0 rest, items = it0 :: rest := by
    cases items with
    | nil => exact absurd rfl hne
    | cons it0 rest => exact ⟨it0, rest, rfl⟩
  have hkey : ∀ it ∈ (it0 :: rest),
      s.doors.find? (fun dd => dd.arc == it || dd.h1 == it || dd.h2 == it)
        = some d ∧
      s.doors.eraseP (fun dd => dd.arc == it || dd.h1 == it || dd.h2 == it)
        = s.doors.erase d := by
    intro it hit
    have hp : (fun dd => dd.arc == it || dd.h1 == it || dd.h2 == it) d = true := by
      rcases hmemb it hit with rfl | rfl | rfl <;> simp
    have hun : ∀ b ∈ s.doors,
        (fun dd => dd.arc == it || dd.h1 == it || dd.h2 == it) b = true
          → b = d := by
      intro b hb hpb
      simp only [Bool.or_eq_true, beq_iff_eq] at hpb
      exact huniq b hb it hit (by tauto)
    exact ⟨find?_eq_some_unique _ _ _ hd hp hun, eraseP_eq_erase _ _ _ hp hun⟩
  set s1 : EditorState := { s with
    doors := s.doors.erase d,
    canvas := canvasDelete (canvasDelete (canvasDelete s.canvas d.arc) d.h1) d.h2 }
    with hs1
  have hstep : erase_at s (it0 :: rest) = erase_at s1 rest := by
    have hdisj := hmemb it0 (List.mem_cons_self _ _)
    have hkey0 := hkey it0 (List.mem_cons_self _ _)
    have hredundant := canvasDelete_redundant s.canvas d.arc d.h1 d.h2 it0 hdisj
    rcases hdisj with h0 | h0 | h0 <;> subst h0 <;>
      simp only [erase_at, htags1, htags2, htags3] <;>
      rw [if_neg (by decide), if_neg (by decide), if_neg (by decide),
        if_pos (by decide), hkey0.1] <;>
      simp only [] <;>
      rw [hkey0.2, hredundant]
  have hclean : ∀ it ∈ rest, ∀ ci ∈ s1.canvas, ci.id ≠ it := by
    intro it hit ci hci
    rcases hmemb it (List.mem_cons_of_mem _ hit) with rfl | rfl | rfl
    · exact (mem_canvasDelete (mem_canvasDelete (mem_canvasDelete hci).1).1).2
    · exact (mem_canvasDelete (mem_canvasDelete hci).1).2
    · exact (mem_canvasDelete hci).2
  have hdone : erase_at s (it0 :: rest) = s1 := by
    rw [hstep, erase_at_untouched s1 rest hclean]
  rw [hdone]
  have hlen : (s.doors.erase d).length + 1 = s.doors.length := by
    rw [List.length_erase_of_mem hd]
    have := List.length_pos_of_mem hd
    omega
  exact ⟨rfl, hlen, rfl, rfl, rfl, rfl, rfl, rfl⟩

/-- A small reachable model: one wall from (0,0) to (100,0) (canvas id 1) and
one door at (10,0) (arc id 2, handles 3 and 4), with measurements off. -/
def ex8State : EditorState :=
  add_door (add_wall { emptyState with showMeasurements := false } 0 0 100 0) 10 0

/-- Witness for C8 (corrected): erasing at the door's left handle (hit-test
result `[3]`) removes exactly the one door with its arc and two handles and
leaves everything else intact. -/
theorem erase_door_spec_witness :
    (erase_at ex8State [3]).doors = ex8State.doors.erase ⟨10, 0, 30, 2, 3, 4, 0⟩ ∧
    (erase_at ex8State [3]).doors.length + 1 = ex8State.doors.length ∧
    (erase_at ex8State [3]).walls = ex8State.walls ∧
    (erase_at ex8State [3]).rooms = ex8State.rooms ∧
    (erase_at ex8State [3]).windows = ex8State.windows ∧
    (erase_at ex8State [3]).staircases = ex8State.staircases ∧
    (erase_at ex8State [3]).furniture = ex8State.furniture ∧
    (erase_at ex8State [3]).canvas =
      canvasDelete (canvasDelete (canvasDelete ex8State.canvas 2) 3) 4 :=
  erase_door_spec ex8State ⟨10, 0, 30, 2, 3, 4, 0⟩ [3] (by decide) (by decide)
    (by decide) (by decide) (by decide) (by decide) (by decide)

/-- Counterexample to C8 as stated: an erase whose hit-test matches the
door's arc (id 2) but also overlaps the wall underneath (id 1) removes the
door *and* the wall in the same action, so the other entities are not left
unchanged. -/
theorem erase_door_cex :
    ex8State.walls.length = 1 ∧ ex8State.doors.length = 1 ∧
    (∃ dd ∈ ex8State.doors, dd.arc = 2) ∧
    (erase_at ex8State [2, 1]).doors.length = 0 ∧
    (erase_at ex8State [2, 1]).walls.length = 0 := by decide

end HomeDesign
